import Mathlib

/-!
Shallow embedding of the mock NVML library
(`src/pkg/gpu/mocknvml`) and proofs of its specification claims.

Modelling conventions:
* C machine integers are modelled as `Nat` (unsigned) or `Int` (signed);
  all values involved stay far below the overflow bounds, and the one
  place where wrap-around matters — the `(unsigned int)-1` sentinel —
  is written out explicitly as `UINT_MAX = 2^32 - 1`.
* The opaque `nvmlDevice_t.handle` pointer field is modelled by its
  numeric `uintptr_t` value (a `Nat`); the NULL pointer is `0`.
* A caller-supplied output pointer is modelled by a `Bool` flag saying
  whether the pointer is NULL, together with an `Option` component of
  the result holding the value the C code stores through the pointer
  (`none` means the code performed no write at all).
* A C string buffer of capacity `length` is modelled by the
  `Option String` result: `some s` means the buffer holds exactly the
  characters of `s` followed by a NUL terminator (the code always
  NUL-terminates on success), `none` means no write was performed.
* The process-wide session counter `g_nvml_ref_count` (a C `int`) is
  threaded explicitly: each operation takes the current counter value
  as its first argument.
-/

namespace MockNvml

/-- The subset of `nvmlReturn_t` codes the mock library actually produces. -/
inductive NvmlReturn where
  | success
  | uninit
  | invalidArgument
  | notSupported
  | notFound
  | insufficientSize
  | timeout
  deriving DecidableEq, Repr

/-- One record of the static fixture table `mock_devices` in
`data/devices.h`.  Field defaults are `0` / `""`, mirroring the C rule
that members omitted from a designated initializer of a static object
are zero-initialized. -/
structure MockDeviceInfo where
  uuid : String := ""
  name : String := ""
  pci_bus_id : String := ""
  pci_bus_id_legacy : String := ""
  serial : String := ""
  pci_domain : Nat := 0
  pci_bus : Nat := 0
  pci_device : Nat := 0
  pci_device_id : Nat := 0
  pci_subsystem_id : Nat := 0
  pci_base_class : Nat := 0
  pci_sub_class : Nat := 0
  memory_total : Nat := 0
  memory_free : Nat := 0
  memory_used : Nat := 0
  minor_number : Nat := 0
  brand : Nat := 0
  persistence_mode : Nat := 0
  display_mode : Nat := 0
  display_active : Nat := 0
  temperature : Nat := 0
  power_usage : Nat := 0
  power_limit : Nat := 0
  clock_graphics : Nat := 0
  clock_sm : Nat := 0
  clock_memory : Nat := 0
  cuda_compute_capability_major : Int := 0
  cuda_compute_capability_minor : Int := 0
  deriving DecidableEq, Repr

/-- The value of `NVML_BRAND_TESLA` in the `nvmlBrandType_t` enumeration. -/
def NVML_BRAND_TESLA : Nat := 2

/-- The static 8-entry fixture table `mock_devices` from
`data/devices.h`, as a total function on the index.  The C array has
exactly 8 entries and every access in the library is guarded by
`index < 8`; indices `≥ 7` fall through to the last entry here, which
no guarded access can observe. -/
def mock_devices (i : Nat) : MockDeviceInfo :=
  match i with
  | 0 =>
    { uuid := "GPU-4404041a-04cf-1ccf-9e70-f139a9b1e23c"
      name := "NVIDIA A100-SXM4-40GB"
      pci_bus_id := "00000000:00:00.0"
      pci_bus_id_legacy := "0000:00:00.0"
      serial := "1563221000001"
      pci_domain := 0, pci_bus := 0, pci_device := 0
      pci_device_id := 0x20B010DE, pci_subsystem_id := 0x134F10DE
      pci_base_class := 0x03, pci_sub_class := 0x02
      memory_total := 42949672960, memory_free := 42949672960, memory_used := 0
      minor_number := 0, brand := NVML_BRAND_TESLA
      persistence_mode := 1, display_mode := 0, display_active := 0
      temperature := 30, power_usage := 100000, power_limit := 400000
      clock_graphics := 1410, clock_sm := 1410, clock_memory := 1593 }
  | 1 =>
    { uuid := "GPU-b8ea3855-276c-c9cb-b366-c6fa655957c5"
      name := "NVIDIA A100-SXM4-40GB"
      pci_bus_id := "00000000:01:00.0"
      pci_bus_id_legacy := "0000:01:00.0"
      serial := "1563221000002"
      pci_domain := 0, pci_bus := 1, pci_device := 0
      pci_device_id := 0x20B010DE, pci_subsystem_id := 0x134F10DE
      pci_base_class := 0x03, pci_sub_class := 0x02
      memory_total := 42949672960, memory_free := 42949672960, memory_used := 0
      minor_number := 1, brand := NVML_BRAND_TESLA
      persistence_mode := 1, display_mode := 0, display_active := 0
      temperature := 31, power_usage := 100000, power_limit := 400000
      clock_graphics := 1410, clock_sm := 1410, clock_memory := 1593
      cuda_compute_capability_major := 8, cuda_compute_capability_minor := 0 }
  | 2 =>
    { uuid := "GPU-36da4373-4344-3b36-9951-6c7af0e8d7a0"
      name := "NVIDIA A100-SXM4-40GB"
      pci_bus_id := "00000000:02:00.0"
      pci_bus_id_legacy := "0000:02:00.0"
      serial := "1563221000003"
      pci_domain := 0, pci_bus := 2, pci_device := 0
      pci_device_id := 0x20B010DE, pci_subsystem_id := 0x134F10DE
      pci_base_class := 0x03, pci_sub_class := 0x02
      memory_total := 42949672960, memory_free := 42949672960, memory_used := 0
      minor_number := 2, brand := NVML_BRAND_TESLA
      persistence_mode := 1, display_mode := 0, display_active := 0
      temperature := 32, power_usage := 100000, power_limit := 400000
      clock_graphics := 1410, clock_sm := 1410, clock_memory := 1593
      cuda_compute_capability_major := 8, cuda_compute_capability_minor := 0 }
  | 3 =>
    { uuid := "GPU-3dc6c589-3bea-2eb8-263e-d7a5b2b3b1ba"
      name := "NVIDIA A100-SXM4-40GB"
      pci_bus_id := "00000000:03:00.0"
      pci_bus_id_legacy := "0000:03:00.0"
      serial := "1563221000004"
      pci_domain := 0, pci_bus := 3, pci_device := 0
      pci_device_id := 0x20B010DE, pci_subsystem_id := 0x134F10DE
      pci_base_class := 0x03, pci_sub_class := 0x02
      memory_total := 42949672960, memory_free := 42949672960, memory_used := 0
      minor_number := 3, brand := NVML_BRAND_TESLA
      persistence_mode := 1, display_mode := 0, display_active := 0
      temperature := 33, power_usage := 100000, power_limit := 400000
      clock_graphics := 1410, clock_sm := 1410, clock_memory := 1593
      cuda_compute_capability_major := 8, cuda_compute_capability_minor := 0 }
  | 4 =>
    { uuid := "GPU-7e8ad30b-b5d9-cd98-3fcf-9b3e4d2ba6a0"
      name := "NVIDIA A100-SXM4-40GB"
      pci_bus_id := "00000000:04:00.0"
      pci_bus_id_legacy := "0000:04:00.0"
      serial := "1563221000005"
      pci_domain := 0, pci_bus := 4, pci_device := 0
      pci_device_id := 0x20B010DE, pci_subsystem_id := 0x134F10DE
      pci_base_class := 0x03, pci_sub_class := 0x02
      memory_total := 42949672960, memory_free := 42949672960, memory_used := 0
      minor_number := 4, brand := NVML_BRAND_TESLA
      persistence_mode := 1, display_mode := 0, display_active := 0
      temperature := 34, power_usage := 100000, power_limit := 400000
      clock_graphics := 1410, clock_sm := 1410, clock_memory := 1593
      cuda_compute_capability_major := 8, cuda_compute_capability_minor := 0 }
  | 5 =>
    { uuid := "GPU-e81b08cb-3aa9-4add-d834-1d3f537ea20f"
      name := "NVIDIA A100-SXM4-40GB"
      pci_bus_id := "00000000:05:00.0"
      pci_bus_id_legacy := "0000:05:00.0"
      serial := "1563221000006"
      pci_domain := 0, pci_bus := 5, pci_device := 0
      pci_device_id := 0x20B010DE, pci_subsystem_id := 0x134F10DE
      pci_base_class := 0x03, pci_sub_class := 0x02
      memory_total := 42949672960, memory_free := 42949672960, memory_used := 0
      minor_number := 5, brand := NVML_BRAND_TESLA
      persistence_mode := 1, display_mode := 0, display_active := 0
      temperature := 35, power_usage := 100000, power_limit := 400000
      clock_graphics := 1410, clock_sm := 1410, clock_memory := 1593
      cuda_compute_capability_major := 8, cuda_compute_capability_minor := 0 }
  | 6 =>
    { uuid := "GPU-eca0e2dd-3d99-2271-10fd-1939fec48d42"
      name := "NVIDIA A100-SXM4-40GB"
      pci_bus_id := "00000000:06:00.0"
      pci_bus_id_legacy := "0000:06:00.0"
      serial := "1563221000007"
      pci_domain := 0, pci_bus := 6, pci_device := 0
      pci_device_id := 0x20B010DE, pci_subsystem_id := 0x134F10DE
      pci_base_class := 0x03, pci_sub_class := 0x02
      memory_total := 42949672960, memory_free := 42949672960, memory_used := 0
      minor_number := 6, brand := NVML_BRAND_TESLA
      persistence_mode := 1, display_mode := 0, display_active := 0
      temperature := 36, power_usage := 100000, power_limit := 400000
      clock_graphics := 1410, clock_sm := 1410, clock_memory := 1593
      cuda_compute_capability_major := 8, cuda_compute_capability_minor := 0 }
  | _ =>
    { uuid := "GPU-c9dea5de-06db-44ff-c80f-ce1d407e77ba"
      name := "NVIDIA A100-SXM4-40GB"
      pci_bus_id := "00000000:07:00.0"
      pci_bus_id_legacy := "0000:07:00.0"
      serial := "1563221000008"
      pci_domain := 0, pci_bus := 7, pci_device := 0
      pci_device_id := 0x20B010DE, pci_subsystem_id := 0x134F10DE
      pci_base_class := 0x03, pci_sub_class := 0x02
      memory_total := 42949672960, memory_free := 42949672960, memory_used := 0
      minor_number := 7, brand := NVML_BRAND_TESLA
      persistence_mode := 1, display_mode := 0, display_active := 0
      temperature := 37, power_usage := 100000, power_limit := 400000
      clock_graphics := 1410, clock_sm := 1410, clock_memory := 1593 }

/-- The sentinel `(unsigned int)-1` returned by `device_handle_to_index`
for an invalid handle. -/
def UINT_MAX : Nat := 4294967295

/-- `is_valid_device_index` from `data/devices.h`. -/
def is_valid_device_index (index : Nat) : Bool :=
  index < 8

/-- `is_valid_device_handle` from `data/devices.h`: the handle pointer
must be non-NULL and its numeric value must lie in `[1, 8]`. -/
def is_valid_device_handle (handle : Nat) : Bool :=
  if handle = 0 then false
  else decide (1 ≤ handle ∧ handle ≤ 8)

/-- `device_handle_to_index` from `data/devices.h`: decode an opaque
handle to a table index, or the `UINT_MAX` sentinel if invalid. -/
def device_handle_to_index (handle : Nat) : Nat :=
  if !is_valid_device_handle handle then UINT_MAX
  else handle - 1

/-! ### Session state machine (`src/nvml_init.c`) -/

/-- `nvmlInit_v2`: increment the reference counter, always succeed.
The counter `g_nvml_ref_count` is a C `int`, modelled as `Int`. -/
def nvmlInit_v2 (c : Int) : NvmlReturn × Int :=
  (.success, c + 1)

/-- `nvmlShutdown`: if the counter is `≤ 0` report `uninit` and leave it
unchanged, otherwise decrement it and succeed. -/
def nvmlShutdown (c : Int) : NvmlReturn × Int :=
  if c ≤ 0 then (.uninit, c)
  else (.success, c - 1)

/-- `nvml_is_initialized`: the session is active when the counter is
strictly positive. -/
def nvml_is_active (c : Int) : Bool :=
  decide (0 < c)

/-- One lifecycle call, for reasoning about call sequences. -/
inductive NvmlOp where
  | init
  | shutdown
  deriving DecidableEq, Repr

/-- Counter value after one lifecycle call. -/
def stepCount (c : Int) : NvmlOp → Int
  | .init => (nvmlInit_v2 c).2
  | .shutdown => (nvmlShutdown c).2

/-- Counter value after a sequence of lifecycle calls. -/
def runOps : List NvmlOp → Int → Int
  | [], c => c
  | op :: ops, c => runOps ops (stepCount c op)

/-- Number of `init` calls in a sequence. -/
def countInits : List NvmlOp → Nat
  | [] => 0
  | .init :: ops => countInits ops + 1
  | .shutdown :: ops => countInits ops

/-- Number of `shutdown` calls in a sequence that return `success`
(i.e. that find a strictly positive counter), starting from counter
value `c`. -/
def countOkShutdowns : List NvmlOp → Int → Nat
  | [], _ => 0
  | .init :: ops, c => countOkShutdowns ops (c + 1)
  | .shutdown :: ops, c =>
      if c ≤ 0 then countOkShutdowns ops c
      else countOkShutdowns ops (c - 1) + 1

theorem runOps_nonneg_eq (ops : List NvmlOp) :
    ∀ c : Int, 0 ≤ c →
      0 ≤ runOps ops c ∧
      runOps ops c = c + (countInits ops : Int) - (countOkShutdowns ops c : Int) := by
  induction ops with
  | nil =>
      intro c hc
      simp [runOps, countInits, countOkShutdowns, hc]
  | cons op ops ih =>
      intro c hc
      cases op with
      | init =>
          have h := ih (c + 1) (by omega)
          simp only [runOps, stepCount, nvmlInit_v2, countInits, countOkShutdowns] at h ⊢
          push_cast
          omega
      | shutdown =>
          by_cases hz : c ≤ 0
          · have h := ih c hc
            simp only [runOps, stepCount, nvmlShutdown, hz, if_pos, countInits,
              countOkShutdowns] at h ⊢
            omega
          · have h := ih (c - 1) (by omega)
            simp only [runOps, stepCount, nvmlShutdown, hz, if_neg, countInits,
              countOkShutdowns, if_false] at h ⊢
            push_cast
            omega

/-! ### Device queries (`src/nvml_device.c`) -/

/-- `nvmlDeviceGetCount_v2`: the fixture has 8 GPUs. -/
def nvmlDeviceGetCount_v2 (c : Int) (deviceCount_null : Bool) :
    NvmlReturn × Option Nat :=
  if !nvml_is_active c then (.uninit, none)
  else if deviceCount_null then (.invalidArgument, none)
  else (.success, some 8)

/-- `nvmlDeviceGetHandleByIndex_v2`: encode a valid index `i` as the
opaque handle value `i + 1`. -/
def nvmlDeviceGetHandleByIndex_v2 (c : Int) (index : Nat) (device_null : Bool) :
    NvmlReturn × Option Nat :=
  if !nvml_is_active c then (.uninit, none)
  else if device_null then (.invalidArgument, none)
  else if !is_valid_device_index index then (.invalidArgument, none)
  else (.success, some (index + 1))

/-- `nvmlDeviceGetIndex`: decode a handle back to its table index. -/
def nvmlDeviceGetIndex (c : Int) (device : Nat) (index_null : Bool) :
    NvmlReturn × Option Nat :=
  if !nvml_is_active c then (.uninit, none)
  else if index_null then (.invalidArgument, none)
  else
    let dev_index := device_handle_to_index device
    if dev_index = UINT_MAX then (.invalidArgument, none)
    else (.success, some dev_index)

/-- `nvmlDeviceGetName`: copy the fixture name into a caller buffer of
capacity `length`.  A `some s` result stands for a buffer holding `s`
NUL-terminated; `none` means no write was performed. -/
def nvmlDeviceGetName (c : Int) (device : Nat) (name_null : Bool) (length : Nat) :
    NvmlReturn × Option String :=
  if !nvml_is_active c then (.uninit, none)
  else if name_null || length == 0 then (.invalidArgument, none)
  else
    let index := device_handle_to_index device
    if index = UINT_MAX then (.invalidArgument, none)
    else
      let device_name := (mock_devices index).name
      if length < device_name.length + 1 then (.insufficientSize, none)
      else (.success, some device_name)

/-- `nvmlDeviceGetCudaComputeCapability`: note that, unlike most
operations, this one checks the handle before the output pointers. -/
def nvmlDeviceGetCudaComputeCapability (c : Int) (device : Nat)
    (major_null minor_null : Bool) : NvmlReturn × Option (Int × Int) :=
  if !nvml_is_active c then (.uninit, none)
  else if !is_valid_device_handle device then (.invalidArgument, none)
  else if major_null || minor_null then (.invalidArgument, none)
  else
    let idx := device_handle_to_index device
    (.success, some ((mock_devices idx).cuda_compute_capability_major,
                     (mock_devices idx).cuda_compute_capability_minor))

/-! ### Memory queries (`src/nvml_memory.c`) -/

/-- The v1 `nvmlMemory_t` output structure. -/
structure NvmlMemory where
  total : Nat
  free : Nat
  used : Nat
  deriving DecidableEq, Repr

/-- The v2 `nvmlMemory_v2_t` output structure. -/
structure NvmlMemoryV2 where
  version : Nat
  total : Nat
  reserved : Nat
  free : Nat
  used : Nat
  deriving DecidableEq, Repr

/-- Modelled from the spec: the expected ABI version tag for the v2
memory structure.  The macro `nvmlMemory_v2` lives in the vendored
`include/nvml.h`, which is not part of this source tree; the vendor
convention encodes the struct size (40 bytes) in the low bits and the
version number 2 in the top byte.  The claims below depend only on this
tag being a fixed nonzero constant. -/
def nvmlMemory_v2 : Nat := 40 + 2 * 16777216

/-- `nvmlDeviceGetMemoryInfo` (v1). -/
def nvmlDeviceGetMemoryInfo (c : Int) (device : Nat) (memory_null : Bool) :
    NvmlReturn × Option NvmlMemory :=
  if !nvml_is_active c then (.uninit, none)
  else if memory_null then (.invalidArgument, none)
  else
    let index := device_handle_to_index device
    if index = UINT_MAX then (.invalidArgument, none)
    else
      let dev := mock_devices index
      (.success, some { total := dev.memory_total
                        free := dev.memory_free
                        used := dev.memory_used })

/-- `nvmlDeviceGetMemoryInfo_v2`.  The `version` argument is the value
of the version field of the caller's in/out structure on entry (the
only input field the C code reads). -/
def nvmlDeviceGetMemoryInfo_v2 (c : Int) (device : Nat) (memory_null : Bool)
    (version : Nat) : NvmlReturn × Option NvmlMemoryV2 :=
  if !nvml_is_active c then (.uninit, none)
  else if memory_null then (.invalidArgument, none)
  else if version ≠ nvmlMemory_v2 ∧ version ≠ 0 then (.invalidArgument, none)
  else
    let index := device_handle_to_index device
    if index = UINT_MAX then (.invalidArgument, none)
    else
      let dev := mock_devices index
      (.success, some { version := nvmlMemory_v2
                        total := dev.memory_total
                        reserved := 0
                        free := dev.memory_free
                        used := dev.memory_used })

/-! ### MIG queries (`src/nvml_mig.c`) -/

/-- `nvmlDeviceGetMigMode`: MIG is never supported by the mock. -/
def nvmlDeviceGetMigMode (c : Int) (device : Nat)
    (currentMode_null pendingMode_null : Bool) : NvmlReturn :=
  if !nvml_is_active c then .uninit
  else if currentMode_null || pendingMode_null then .invalidArgument
  else if device_handle_to_index device = UINT_MAX then .invalidArgument
  else .notSupported

/-- `nvmlDeviceGetMaxMigDeviceCount`: succeeds with a count of 0. -/
def nvmlDeviceGetMaxMigDeviceCount (c : Int) (device : Nat) (count_null : Bool) :
    NvmlReturn × Option Nat :=
  if !nvml_is_active c then (.uninit, none)
  else if count_null then (.invalidArgument, none)
  else if device_handle_to_index device = UINT_MAX then (.invalidArgument, none)
  else (.success, some 0)

/-- `nvmlDeviceGetGpuInstancePossiblePlacements_v2`: writes `*count = 0`
and then reports `notSupported`.  `profileId` and the placements
pointer are never inspected. -/
def nvmlDeviceGetGpuInstancePossiblePlacements_v2 (c : Int) (device : Nat)
    (_profileId : Nat) (count_null : Bool) : NvmlReturn × Option Nat :=
  if !nvml_is_active c then (.uninit, none)
  else if count_null then (.invalidArgument, none)
  else if device_handle_to_index device = UINT_MAX then (.invalidArgument, none)
  else (.notSupported, some 0)

/-- `nvmlDeviceGetGpuInstances`: same shape as the placements query. -/
def nvmlDeviceGetGpuInstances (c : Int) (device : Nat)
    (_profileId : Nat) (count_null : Bool) : NvmlReturn × Option Nat :=
  if !nvml_is_active c then (.uninit, none)
  else if count_null then (.invalidArgument, none)
  else if device_handle_to_index device = UINT_MAX then (.invalidArgument, none)
  else (.notSupported, some 0)

/-- `nvmlDeviceCreateGpuInstance`: the output pointer is never checked
or written; the call fails with `notSupported` for any valid handle. -/
def nvmlDeviceCreateGpuInstance (c : Int) (device : Nat) (_profileId : Nat) :
    NvmlReturn :=
  if !nvml_is_active c then .uninit
  else if device_handle_to_index device = UINT_MAX then .invalidArgument
  else .notSupported

/-- `nvmlGpuInstanceDestroy`: only the session gate, then `notSupported`. -/
def nvmlGpuInstanceDestroy (c : Int) (_gpuInstance : Nat) : NvmlReturn :=
  if !nvml_is_active c then .uninit
  else .notSupported

/-- `nvmlComputeInstanceGetInfo_v2`: only the session gate, then
`notSupported`. -/
def nvmlComputeInstanceGetInfo_v2 (c : Int) (_computeInstance : Nat)
    (_info_null : Bool) : NvmlReturn :=
  if !nvml_is_active c then .uninit
  else .notSupported

/-! ### NVLink, events (`src/nvml_stubs.c`) -/

/-- The `nvmlPciInfo_t` output structure, with the fields the mock
writes. -/
structure NvmlPciInfo where
  busIdLegacy : String
  domain : Nat
  bus : Nat
  device : Nat
  pciDeviceId : Nat
  pciSubSystemId : Nat
  busId : String
  deriving DecidableEq, Repr

/-- `NVML_FEATURE_ENABLED` of `nvmlEnableState_t`. -/
def NVML_FEATURE_ENABLED : Nat := 1

/-- `nvmlDeviceGetNvLinkState`: every link `< 12` is reported enabled
on every device. -/
def nvmlDeviceGetNvLinkState (c : Int) (device : Nat) (link : Nat)
    (isActive_null : Bool) : NvmlReturn × Option Nat :=
  if !nvml_is_active c then (.uninit, none)
  else if !is_valid_device_handle device then (.invalidArgument, none)
  else if isActive_null then (.invalidArgument, none)
  else if 12 ≤ link then (.invalidArgument, none)
  else (.success, some NVML_FEATURE_ENABLED)

/-- `nvmlDeviceGetNvLinkRemotePciInfo_v2`: synthesize a ring topology;
the remote of `(idx, link)` is the device at `(idx + link / 2 + 1) % 8`,
whose PCI identity is written to the output. -/
def nvmlDeviceGetNvLinkRemotePciInfo_v2 (c : Int) (device : Nat) (link : Nat)
    (pci_null : Bool) : NvmlReturn × Option NvmlPciInfo :=
  if !nvml_is_active c then (.uninit, none)
  else if !is_valid_device_handle device then (.invalidArgument, none)
  else if pci_null then (.invalidArgument, none)
  else if 12 ≤ link then (.invalidArgument, none)
  else
    let idx := device_handle_to_index device
    let remote_idx := (idx + link / 2 + 1) % 8
    let remote := mock_devices remote_idx
    (.success, some { busIdLegacy := remote.pci_bus_id_legacy
                      domain := remote.pci_domain
                      bus := remote.pci_bus
                      device := remote.pci_device
                      pciDeviceId := remote.pci_device_id
                      pciSubSystemId := remote.pci_subsystem_id
                      busId := remote.pci_bus_id })

/-- `nvmlEventSetCreate`: every successful creation writes the same
constant dummy handle value `0xDEADBEEF`. -/
def nvmlEventSetCreate (c : Int) (set_null : Bool) : NvmlReturn × Option Nat :=
  if !nvml_is_active c then (.uninit, none)
  else if set_null then (.invalidArgument, none)
  else (.success, some 0xDEADBEEF)

/-- `nvmlEventSetFree`: succeeds for any handle value whenever the
session is active; the handle is never inspected. -/
def nvmlEventSetFree (c : Int) (_set : Nat) : NvmlReturn :=
  if !nvml_is_active c then .uninit
  else .success

/-! ### System queries (`src/nvml_system.c`) -/

/-- The fixed mock driver version string. -/
def MOCK_DRIVER_VERSION : String := "550.54.15"

/-- `nvmlSystemGetDriverVersion`: copy the fixed version string into a
caller buffer of capacity `length`, with the same buffer convention as
`nvmlDeviceGetName`. -/
def nvmlSystemGetDriverVersion (c : Int) (version_null : Bool) (length : Nat) :
    NvmlReturn × Option String :=
  if !nvml_is_active c then (.uninit, none)
  else if version_null || length == 0 then (.invalidArgument, none)
  else if length < MOCK_DRIVER_VERSION.length + 1 then (.insufficientSize, none)
  else (.success, some MOCK_DRIVER_VERSION)

/-! ### Helper lemmas -/

theorem handle_valid_iff (h : Nat) :
    is_valid_device_handle h = true ↔ (1 ≤ h ∧ h ≤ 8) := by
  unfold is_valid_device_handle
  split
  · constructor
    · intro hc
      cases hc
    · intro hc
      omega
  · simp

theorem decode_encode {i : Nat} (hi : i < 8) :
    device_handle_to_index (i + 1) = i := by
  have hv : is_valid_device_handle (i + 1) = true :=
    (handle_valid_iff (i + 1)).2 ⟨by omega, by omega⟩
  simp [device_handle_to_index, hv]

theorem decode_invalid {h : Nat} (hh : ¬(1 ≤ h ∧ h ≤ 8)) :
    device_handle_to_index h = UINT_MAX := by
  have hv : is_valid_device_handle h = false := by
    rcases Bool.eq_false_or_eq_true (is_valid_device_handle h) with h' | h'
    · exact absurd ((handle_valid_iff h).1 h') hh
    · exact h'
  simp [device_handle_to_index, hv]

theorem decode_valid {h : Nat} (hh : 1 ≤ h ∧ h ≤ 8) :
    device_handle_to_index h = h - 1 ∧ device_handle_to_index h ≠ UINT_MAX := by
  have hv : is_valid_device_handle h = true := (handle_valid_iff h).2 hh
  refine ⟨by simp [device_handle_to_index, hv], ?_⟩
  simp only [device_handle_to_index, hv, Bool.not_true, Bool.false_eq_true,
    if_false, UINT_MAX]
  omega

theorem active_of_pos {c : Int} (hc : 0 < c) : nvml_is_active c = true := by
  simp [nvml_is_active, hc]

theorem inactive_of_nonpos {c : Int} (hc : ¬ 0 < c) : nvml_is_active c = false := by
  simp [nvml_is_active, hc]

theorem mock_devices_memory (i : Nat) :
    (mock_devices i).memory_total = 42949672960 ∧
    (mock_devices i).memory_free = 42949672960 ∧
    (mock_devices i).memory_used = 0 := by
  rcases i with _ | _ | _ | _ | _ | _ | _ | i <;> exact ⟨rfl, rfl, rfl⟩

theorem mock_devices_name (i : Nat) :
    (mock_devices i).name = "NVIDIA A100-SXM4-40GB" := by
  rcases i with _ | _ | _ | _ | _ | _ | _ | i <;> rfl

/-! ### Claim theorems -/

/-- C2: starting from counter 0, every `nvmlInit_v2` increments the
counter and succeeds; `nvmlShutdown` on a zero counter reports `uninit`
and leaves the counter unchanged, and on a positive counter decrements
it and succeeds; after any sequence of lifecycle calls the counter is
non-negative, equals the number of inits minus the number of successful
shutdowns, and the session is active iff that net count is positive. -/
theorem refcount_state_machine (ops : List NvmlOp) :
    0 ≤ runOps ops 0 ∧
    runOps ops 0 = (countInits ops : Int) - (countOkShutdowns ops 0 : Int) ∧
    (nvml_is_active (runOps ops 0) = true ↔
      (countOkShutdowns ops 0 : Int) < (countInits ops : Int)) ∧
    (∀ c : Int, nvmlInit_v2 c = (.success, c + 1)) ∧
    nvmlShutdown 0 = (.uninit, 0) ∧
    (∀ c : Int, 0 < c → nvmlShutdown c = (.success, c - 1)) := by
  obtain ⟨h1, h2⟩ := runOps_nonneg_eq ops 0 le_rfl
  rw [zero_add] at h2
  refine ⟨h1, h2, ?_, fun c => rfl, rfl, ?_⟩
  · rw [h2]
    simp only [nvml_is_active, decide_eq_true_eq]
    omega
  · intro c hc
    have : ¬ c ≤ 0 := by omega
    simp [nvmlShutdown, this]

theorem refcount_state_machine_witness :
    nvmlShutdown 3 = (.success, 3 - 1) ∧
    runOps [NvmlOp.init, NvmlOp.init, NvmlOp.shutdown] 0 =
      (countInits [NvmlOp.init, NvmlOp.init, NvmlOp.shutdown] : Int) -
      (countOkShutdowns [NvmlOp.init, NvmlOp.init, NvmlOp.shutdown] 0 : Int) :=
  ⟨(refcount_state_machine []).2.2.2.2.2 3 (by decide),
   (refcount_state_machine [NvmlOp.init, NvmlOp.init, NvmlOp.shutdown]).2.1⟩

/-- C3: for every index `i < 8`, `nvmlDeviceGetHandleByIndex_v2`
encodes `i` as the handle value `i + 1` (never 0), and
`device_handle_to_index` decodes that handle back to `i`; every handle
value outside `[1, 8]` decodes to the `UINT_MAX` sentinel, and callers
(`nvmlDeviceGetName`, `nvmlDeviceGetIndex` as representatives) check
for it and reject with `invalidArgument` before touching the table. -/
theorem handle_codec_roundtrip (c : Int) (i h : Nat) (hc : 0 < c) :
    (i < 8 →
      nvmlDeviceGetHandleByIndex_v2 c i false = (.success, some (i + 1)) ∧
      i + 1 ≠ 0 ∧
      device_handle_to_index (i + 1) = i) ∧
    (¬(1 ≤ h ∧ h ≤ 8) →
      device_handle_to_index h = UINT_MAX ∧
      (nvmlDeviceGetName c h false 100).1 = .invalidArgument ∧
      (nvmlDeviceGetIndex c h false).1 = .invalidArgument) := by
  have hact := active_of_pos hc
  constructor
  · intro hi
    have hvi : is_valid_device_index i = true := by
      simp [is_valid_device_index, hi]
    refine ⟨?_, by omega, decode_encode hi⟩
    simp [nvmlDeviceGetHandleByIndex_v2, hact, hvi]
  · intro hh
    have hd := decode_invalid hh
    refine ⟨hd, ?_, ?_⟩
    · simp [nvmlDeviceGetName, hact, hd]
    · simp [nvmlDeviceGetIndex, hact, hd]

theorem handle_codec_roundtrip_witness :
    device_handle_to_index (3 + 1) = 3 ∧ device_handle_to_index 9 = UINT_MAX :=
  ⟨((handle_codec_roundtrip 1 3 9 (by decide)).1 (by decide)).2.2,
   ((handle_codec_roundtrip 1 3 9 (by decide)).2 (by decide)).1⟩

/-- C4: for every fixture device and both memory queries, the returned
record satisfies `total = free + used`, with `used = 0` and
`free = total`; moreover any successful v2 query (for any accepted
version tag and any handle) reports `reserved = 0`. -/
theorem memory_invariant (c : Int) (i device v : Nat)
    (hc : 0 < c) (hi : i < 8) :
    (∃ m : NvmlMemory,
      nvmlDeviceGetMemoryInfo c (i + 1) false = (.success, some m) ∧
      m.total = m.free + m.used ∧ m.used = 0 ∧ m.free = m.total) ∧
    (∃ m2 : NvmlMemoryV2,
      nvmlDeviceGetMemoryInfo_v2 c (i + 1) false nvmlMemory_v2 =
        (.success, some m2) ∧
      m2.total = m2.free + m2.used ∧ m2.used = 0 ∧ m2.free = m2.total ∧
      m2.reserved = 0) ∧
    (∀ m2 : NvmlMemoryV2,
      (nvmlDeviceGetMemoryInfo_v2 c device false v).2 = some m2 →
      m2.total = m2.free + m2.used ∧ m2.reserved = 0 ∧ m2.used = 0) := by
  have hact := active_of_pos hc
  have hdec := decode_encode hi
  have hne : device_handle_to_index (i + 1) ≠ UINT_MAX := by
    rw [hdec]
    simp only [UINT_MAX]
    omega
  have hiu : ¬ i = UINT_MAX := by
    simp only [UINT_MAX]
    omega
  obtain ⟨hmt, hmf, hmu⟩ := mock_devices_memory i
  refine ⟨?_, ?_, ?_⟩
  · refine ⟨{ total := (mock_devices i).memory_total
              free := (mock_devices i).memory_free
              used := (mock_devices i).memory_used }, ?_, ?_⟩
    · simp [nvmlDeviceGetMemoryInfo, hact, hdec, hiu]
    · simp [hmt, hmf, hmu]
  · refine ⟨{ version := nvmlMemory_v2
              total := (mock_devices i).memory_total
              reserved := 0
              free := (mock_devices i).memory_free
              used := (mock_devices i).memory_used }, ?_, ?_⟩
    · simp [nvmlDeviceGetMemoryInfo_v2, hact, hdec, hiu]
    · simp [hmt, hmf, hmu]
  · intro m2 hm2
    rcases Bool.eq_false_or_eq_true (nvml_is_active c) with h1 | h1
    case inr => simp [nvmlDeviceGetMemoryInfo_v2, h1] at hm2
    case inl =>
      by_cases h2 : v ≠ nvmlMemory_v2 ∧ v ≠ 0
      · simp [nvmlDeviceGetMemoryInfo_v2, h1, h2] at hm2
      · by_cases h3 : device_handle_to_index device = UINT_MAX
        · simp [nvmlDeviceGetMemoryInfo_v2, h1, h2, h3] at hm2
        · obtain ⟨hmt', hmf', hmu'⟩ :=
            mock_devices_memory (device_handle_to_index device)
          simp [nvmlDeviceGetMemoryInfo_v2, h1, h2, h3] at hm2
          subst hm2
          simp [hmt', hmf', hmu']

theorem memory_invariant_witness :
    ∃ m : NvmlMemory,
      nvmlDeviceGetMemoryInfo 1 (0 + 1) false = (.success, some m) ∧
      m.total = m.free + m.used ∧ m.used = 0 ∧ m.free = m.total :=
  (memory_invariant 1 0 1 0 (by decide) (by decide)).1

/-- C1: validation order, observed on the three cited operations
(`nvmlDeviceGetCudaComputeCapability`, `nvmlDeviceGetNvLinkState`,
`nvmlDeviceGetName`): (1) an inactive session yields `uninit` whatever
the other arguments are; (2) with an active session, a NULL required
output pointer yields `invalidArgument` regardless of whether the
handle is valid or invalid; (3) with non-NULL outputs, an invalid
handle yields `invalidArgument` (for `nvmlDeviceGetName`, before any
buffer-size check, whatever the capacity); (4) for a valid handle, an
out-of-domain numeric argument (`link ≥ 12`) yields `invalidArgument`;
(5) only then is the buffer capacity checked, `insufficientSize` being
reported exactly when the capacity cannot hold the value plus its NUL
terminator. -/
theorem validation_order_fixed (c : Int) (device link length : Nat)
    (mjn mn : Bool) :
    (¬ 0 < c →
      (nvmlDeviceGetCudaComputeCapability c device mjn mn).1 = .uninit ∧
      (nvmlDeviceGetNvLinkState c device link mn).1 = .uninit ∧
      (nvmlDeviceGetName c device mn length).1 = .uninit) ∧
    (0 < c → (mjn || mn) = true →
      (nvmlDeviceGetCudaComputeCapability c device mjn mn).1 =
        .invalidArgument) ∧
    (0 < c →
      (nvmlDeviceGetNvLinkState c device link true).1 = .invalidArgument ∧
      (nvmlDeviceGetName c device true length).1 = .invalidArgument) ∧
    (0 < c → ¬(1 ≤ device ∧ device ≤ 8) → length ≠ 0 →
      (nvmlDeviceGetName c device false length).1 = .invalidArgument ∧
      (nvmlDeviceGetNvLinkState c device link false).1 = .invalidArgument) ∧
    (0 < c → 1 ≤ device ∧ device ≤ 8 → 12 ≤ link →
      (nvmlDeviceGetNvLinkState c device link false).1 = .invalidArgument) ∧
    (0 < c → 1 ≤ device ∧ device ≤ 8 → length ≠ 0 →
      ((nvmlDeviceGetName c device false length).1 = .insufficientSize ↔
        length < (mock_devices (device - 1)).name.length + 1)) := by
  refine ⟨?_, ?_, ?_, ?_, ?_, ?_⟩
  · intro hc
    have hact := inactive_of_nonpos hc
    exact ⟨by simp [nvmlDeviceGetCudaComputeCapability, hact],
           by simp [nvmlDeviceGetNvLinkState, hact],
           by simp [nvmlDeviceGetName, hact]⟩
  · intro hc hm
    have hact := active_of_pos hc
    rcases Bool.eq_false_or_eq_true (is_valid_device_handle device) with hv | hv
    · simp [nvmlDeviceGetCudaComputeCapability, hact, hv, hm]
    · simp [nvmlDeviceGetCudaComputeCapability, hact, hv]
  · intro hc
    have hact := active_of_pos hc
    constructor
    · rcases Bool.eq_false_or_eq_true (is_valid_device_handle device) with hv | hv
      · simp [nvmlDeviceGetNvLinkState, hact, hv]
      · simp [nvmlDeviceGetNvLinkState, hact, hv]
    · simp [nvmlDeviceGetName, hact]
  · intro hc hd hl
    have hact := active_of_pos hc
    have hdec := decode_invalid hd
    have hv : is_valid_device_handle device = false := by
      rcases Bool.eq_false_or_eq_true (is_valid_device_handle device) with hv | hv
      · exact absurd ((handle_valid_iff device).1 hv) hd
      · exact hv
    exact ⟨by simp [nvmlDeviceGetName, hact, hdec, hl],
           by simp [nvmlDeviceGetNvLinkState, hact, hv]⟩
  · intro hc hd hl
    have hact := active_of_pos hc
    have hv : is_valid_device_handle device = true := (handle_valid_iff device).2 hd
    simp [nvmlDeviceGetNvLinkState, hact, hv, hl]
  · intro hc hd hl
    have hact := active_of_pos hc
    obtain ⟨hdec, hne⟩ := decode_valid hd
    have hne' : ¬ device - 1 = UINT_MAX := by
      simp only [UINT_MAX]
      omega
    by_cases hcap : length < (mock_devices (device - 1)).name.length + 1
    · simp [nvmlDeviceGetName, hact, hdec, hne', hl, hcap]
    · simp [nvmlDeviceGetName, hact, hdec, hne', hl, hcap]

theorem validation_order_fixed_witness :
    (nvmlDeviceGetCudaComputeCapability 1 0 true false).1 =
      NvmlReturn.invalidArgument ∧
    (nvmlDeviceGetName 1 3 true 10).1 = NvmlReturn.invalidArgument :=
  ⟨(validation_order_fixed 1 0 0 0 true false).2.1 (by decide) (by decide),
   ((validation_order_fixed 1 3 0 10 true true).2.2.1 (by decide)).2⟩

/-- C5 counterexample: with the session active, a non-null output
struct, and the caller-supplied version equal to the accepted v2 tag,
the query still fails with `invalidArgument` when the device handle is
the NULL handle `0` — so "fails with invalid-argument iff the version
tag is bad", stated only under an active session and a non-null output,
is false. -/
theorem memoryInfo_v2_version_iff_refuted :
    (nvmlDeviceGetMemoryInfo_v2 1 0 false nvmlMemory_v2).1 =
      NvmlReturn.invalidArgument ∧
    ¬(nvmlMemory_v2 ≠ nvmlMemory_v2 ∧ nvmlMemory_v2 ≠ 0) := by
  decide

/-- C5 (amended): given an active session, a valid device handle and a
non-null output struct, the v2 memory query fails with
`invalidArgument` iff the caller-supplied version tag is neither the
expected v2 tag nor the zero/unset sentinel; whenever the query
succeeds, the version field of the output is set to the expected v2
tag, regardless of which accepted value the caller supplied. -/
theorem memoryInfo_v2_version_gate (c : Int) (device v : Nat)
    (hc : 0 < c) (hd : 1 ≤ device ∧ device ≤ 8) :
    ((nvmlDeviceGetMemoryInfo_v2 c device false v).1 = .invalidArgument ↔
      (v ≠ nvmlMemory_v2 ∧ v ≠ 0)) ∧
    (∀ m2 : NvmlMemoryV2,
      (nvmlDeviceGetMemoryInfo_v2 c device false v).2 = some m2 →
      m2.version = nvmlMemory_v2) ∧
    ((v = nvmlMemory_v2 ∨ v = 0) →
      (nvmlDeviceGetMemoryInfo_v2 c device false v).1 = .success) := by
  have hact := active_of_pos hc
  obtain ⟨hdec, hne⟩ := decode_valid hd
  by_cases h2 : v ≠ nvmlMemory_v2 ∧ v ≠ 0
  · refine ⟨?_, ?_, ?_⟩
    · simp [nvmlDeviceGetMemoryInfo_v2, hact, h2]
    · intro m2 hm2
      simp [nvmlDeviceGetMemoryInfo_v2, hact, h2] at hm2
    · intro hv
      rcases hv with hv | hv <;> exact absurd hv (by tauto)
  · refine ⟨?_, ?_, ?_⟩
    · simp [nvmlDeviceGetMemoryInfo_v2, hact, h2, hne]
    · intro m2 hm2
      simp [nvmlDeviceGetMemoryInfo_v2, hact, h2, hne] at hm2
      subst hm2
      rfl
    · intro _
      simp [nvmlDeviceGetMemoryInfo_v2, hact, h2, hne]

theorem memoryInfo_v2_version_gate_witness :
    (nvmlDeviceGetMemoryInfo_v2 1 1 false 0).1 = NvmlReturn.success :=
  (memoryInfo_v2_version_gate 1 1 0 (by decide) (by decide)).2.2 (Or.inr rfl)

/-- The PCI identity of fixture device `j`, exactly the fields the
remote-info query writes to its output. -/
def pciIdentityOfDevice (j : Nat) : NvmlPciInfo :=
  { busIdLegacy := (mock_devices j).pci_bus_id_legacy
    domain := (mock_devices j).pci_domain
    bus := (mock_devices j).pci_bus
    device := (mock_devices j).pci_device
    pciDeviceId := (mock_devices j).pci_device_id
    pciSubSystemId := (mock_devices j).pci_subsystem_id
    busId := (mock_devices j).pci_bus_id }

/-- C6: for every valid device index `i` and link `< 12`, the NVLink
state query reports enabled and the remote-PCI-info query returns the
PCI identity of the device at ring index `(i + link / 2 + 1) % 8`;
both functions are pure, so repeated calls with the same
`(index, link)` pair trivially agree; every link `≥ 12` is rejected
with `invalidArgument` by both. -/
theorem nvlink_ring_topology (c : Int) (i link : Nat)
    (hc : 0 < c) (hi : i < 8) :
    (link < 12 →
      nvmlDeviceGetNvLinkState c (i + 1) link false =
        (.success, some NVML_FEATURE_ENABLED) ∧
      nvmlDeviceGetNvLinkRemotePciInfo_v2 c (i + 1) link false =
        (.success, some (pciIdentityOfDevice ((i + link / 2 + 1) % 8)))) ∧
    (12 ≤ link →
      (nvmlDeviceGetNvLinkState c (i + 1) link false).1 = .invalidArgument ∧
      (nvmlDeviceGetNvLinkRemotePciInfo_v2 c (i + 1) link false).1 =
        .invalidArgument) := by
  have hact := active_of_pos hc
  have hv : is_valid_device_handle (i + 1) = true :=
    (handle_valid_iff (i + 1)).2 ⟨by omega, by omega⟩
  have hdec := decode_encode hi
  constructor
  · intro hl
    have hl' : ¬ 12 ≤ link := by omega
    constructor
    · simp [nvmlDeviceGetNvLinkState, hact, hv, hl']
    · simp [nvmlDeviceGetNvLinkRemotePciInfo_v2, hact, hv, hl', hdec,
        pciIdentityOfDevice]
  · intro hl
    exact ⟨by simp [nvmlDeviceGetNvLinkState, hact, hv, hl],
           by simp [nvmlDeviceGetNvLinkRemotePciInfo_v2, hact, hv, hl]⟩

theorem nvlink_ring_topology_witness :
    nvmlDeviceGetNvLinkRemotePciInfo_v2 1 (0 + 1) 0 false =
      (NvmlReturn.success, some (pciIdentityOfDevice ((0 + 0 / 2 + 1) % 8))) :=
  ((nvlink_ring_topology 1 0 0 (by decide) (by decide)).1 (by decide)).2

/-- C7: with an active session, a valid handle and non-null output
pointers, every MIG mode/instance query returns `notSupported`, for any
profile id, GPU-instance or compute-instance argument, while the
max-MIG-device-count query succeeds with count 0 — on every device. -/
theorem mig_not_supported_asymmetry (c : Int) (device p g ci : Nat)
    (hc : 0 < c) (hd : 1 ≤ device ∧ device ≤ 8) :
    nvmlDeviceGetMigMode c device false false = .notSupported ∧
    (nvmlDeviceGetGpuInstancePossiblePlacements_v2 c device p false).1 =
      .notSupported ∧
    (nvmlDeviceGetGpuInstances c device p false).1 = .notSupported ∧
    nvmlDeviceCreateGpuInstance c device p = .notSupported ∧
    nvmlGpuInstanceDestroy c g = .notSupported ∧
    nvmlComputeInstanceGetInfo_v2 c ci false = .notSupported ∧
    nvmlDeviceGetMaxMigDeviceCount c device false = (.success, some 0) := by
  have hact := active_of_pos hc
  obtain ⟨hdec, hne⟩ := decode_valid hd
  refine ⟨?_, ?_, ?_, ?_, ?_, ?_, ?_⟩
  · simp [nvmlDeviceGetMigMode, hact, hne]
  · simp [nvmlDeviceGetGpuInstancePossiblePlacements_v2, hact, hne]
  · simp [nvmlDeviceGetGpuInstances, hact, hne]
  · simp [nvmlDeviceCreateGpuInstance, hact, hne]
  · simp [nvmlGpuInstanceDestroy, hact]
  · simp [nvmlComputeInstanceGetInfo_v2, hact]
  · simp [nvmlDeviceGetMaxMigDeviceCount, hact, hne]

theorem mig_not_supported_asymmetry_witness :
    nvmlDeviceGetMigMode 1 1 false false = NvmlReturn.notSupported ∧
    nvmlDeviceGetMaxMigDeviceCount 1 1 false = (NvmlReturn.success, some 0) :=
  ⟨(mig_not_supported_asymmetry 1 1 0 0 0 (by decide) (by decide)).1,
   (mig_not_supported_asymmetry 1 1 0 0 0 (by decide) (by decide)).2.2.2.2.2.2⟩

/-- C8 counterexample: a zero capacity is less than the driver-version
string's length plus one, yet the operation reports `invalidArgument`,
not `insufficientSize` — the claim as stated (for any capacity below
length-plus-one) fails at capacity 0. -/
theorem buffer_contract_zero_capacity_refuted :
    0 < MOCK_DRIVER_VERSION.length + 1 ∧
    (nvmlSystemGetDriverVersion 1 false 0).1 = NvmlReturn.invalidArgument ∧
    ¬(nvmlSystemGetDriverVersion 1 false 0).1 = NvmlReturn.insufficientSize := by
  decide

/-- C8 (amended): for the string-returning operations (active session,
valid handle where applicable, non-null buffer, and a positive
capacity): a capacity below the value's length plus one terminator byte
yields `insufficientSize` with no write performed, and a capacity of
exactly length plus one yields success with the buffer holding the full
value, NUL-terminated. -/
theorem buffer_contract (c : Int) (i cap : Nat)
    (hc : 0 < c) (hi : i < 8) (hcap : 0 < cap) :
    (cap < (mock_devices i).name.length + 1 →
      nvmlDeviceGetName c (i + 1) false cap = (.insufficientSize, none)) ∧
    (cap = (mock_devices i).name.length + 1 →
      nvmlDeviceGetName c (i + 1) false cap =
        (.success, some (mock_devices i).name)) ∧
    (cap < MOCK_DRIVER_VERSION.length + 1 →
      nvmlSystemGetDriverVersion c false cap = (.insufficientSize, none)) ∧
    (cap = MOCK_DRIVER_VERSION.length + 1 →
      nvmlSystemGetDriverVersion c false cap =
        (.success, some MOCK_DRIVER_VERSION)) := by
  have hact := active_of_pos hc
  have hdec := decode_encode hi
  have hne : ¬ i = UINT_MAX := by
    simp only [UINT_MAX]
    omega
  have hcap' : cap ≠ 0 := by omega
  refine ⟨?_, ?_, ?_, ?_⟩
  · intro hlt
    simp [nvmlDeviceGetName, hact, hdec, hne, hcap', hlt]
  · intro heq
    have hge : ¬ cap < (mock_devices i).name.length + 1 := by omega
    simp [nvmlDeviceGetName, hact, hdec, hne, hcap', hge]
  · intro hlt
    simp [nvmlSystemGetDriverVersion, hact, hcap', hlt]
  · intro heq
    have hge : ¬ cap < MOCK_DRIVER_VERSION.length + 1 := by omega
    simp [nvmlSystemGetDriverVersion, hact, hcap', hge]

theorem buffer_contract_witness :
    nvmlDeviceGetName 1 (0 + 1) false 21 = (NvmlReturn.insufficientSize, none) ∧
    nvmlDeviceGetName 1 (0 + 1) false 22 =
      (NvmlReturn.success, some (mock_devices 0).name) :=
  ⟨(buffer_contract 1 0 21 (by decide) (by decide) (by decide)).1 (by decide),
   ((buffer_contract 1 0 22 (by decide) (by decide) (by decide)).2.1
      (by decide))⟩

theorem mock_devices_cc_mid (i : Nat) (h1 : 1 ≤ i) (h6 : i ≤ 6) :
    (mock_devices i).cuda_compute_capability_major = 8 ∧
    (mock_devices i).cuda_compute_capability_minor = 0 := by
  interval_cases i <;> exact ⟨rfl, rfl⟩

/-- C9: the CUDA compute-capability query reports `(8, 0)` for the
devices at indices 1 through 6 (handles 2 through 7), but `(0, 0)` for
the devices at indices 0 and 7 (handles 1 and 8), whose fixture entries
leave the capability fields zero-initialized — even though all 8
fixture entries carry the same device name. -/
theorem cuda_cc_nonuniform (c : Int) (i : Nat)
    (hc : 0 < c) (h1 : 1 ≤ i) (h6 : i ≤ 6) :
    nvmlDeviceGetCudaComputeCapability c (i + 1) false false =
      (.success, some (8, 0)) ∧
    nvmlDeviceGetCudaComputeCapability c 1 false false =
      (.success, some (0, 0)) ∧
    nvmlDeviceGetCudaComputeCapability c 8 false false =
      (.success, some (0, 0)) ∧
    (∀ j k : Nat, (mock_devices j).name = (mock_devices k).name) := by
  have hact := active_of_pos hc
  have hv : is_valid_device_handle (i + 1) = true :=
    (handle_valid_iff (i + 1)).2 ⟨by omega, by omega⟩
  have hv1 : is_valid_device_handle 1 = true := by decide
  have hv8 : is_valid_device_handle 8 = true := by decide
  have hdec := decode_encode (show i < 8 by omega)
  obtain ⟨hcM, hcm⟩ := mock_devices_cc_mid i h1 h6
  refine ⟨?_, ?_, ?_, ?_⟩
  · simp [nvmlDeviceGetCudaComputeCapability, hact, hv, hdec, hcM, hcm]
  · simp [nvmlDeviceGetCudaComputeCapability, hact, hv1]
    exact ⟨rfl, rfl⟩
  · simp [nvmlDeviceGetCudaComputeCapability, hact, hv8]
    exact ⟨rfl, rfl⟩
  · intro j k
    rw [mock_devices_name j, mock_devices_name k]

theorem cuda_cc_nonuniform_witness :
    nvmlDeviceGetCudaComputeCapability 1 (1 + 1) false false =
      (NvmlReturn.success, some (8, 0)) ∧
    nvmlDeviceGetCudaComputeCapability 1 8 false false =
      (NvmlReturn.success, some (0, 0)) :=
  ⟨(cuda_cc_nonuniform 1 1 (by decide) (by decide) (by decide)).1,
   (cuda_cc_nonuniform 1 1 (by decide) (by decide) (by decide)).2.2.1⟩

/-- C10: with an active session and a non-null output pointer, event-set
creation always succeeds and writes the same constant opaque handle
value `0xDEADBEEF`, so any two created event sets are equal; event-set
free succeeds for any handle value whatsoever while the session is
active, without inspecting the handle. -/
theorem event_set_constant (c : Int) (s : Nat) (hc : 0 < c) :
    nvmlEventSetCreate c false = (.success, some 0xDEADBEEF) ∧
    (nvmlEventSetCreate c false).2 = (nvmlEventSetCreate 1 false).2 ∧
    nvmlEventSetFree c s = .success := by
  have hact := active_of_pos hc
  refine ⟨?_, ?_, ?_⟩
  · simp [nvmlEventSetCreate, hact]
  · simp [nvmlEventSetCreate, hact]
    rfl
  · simp [nvmlEventSetFree, hact]

theorem event_set_constant_witness :
    nvmlEventSetCreate 1 false = (NvmlReturn.success, some 0xDEADBEEF) ∧
    nvmlEventSetFree 1 987654321 = NvmlReturn.success :=
  ⟨(event_set_constant 1 987654321 (by decide)).1,
   (event_set_constant 1 987654321 (by decide)).2.2⟩

end MockNvml
